import Mathlib

/-
Shallow embedding of the Flying Whiskers per-frame simulation loop
(src/components/GameScene.tsx, render observer) together with the score
handling of src/components/Game.tsx.

Positions and velocities are modelled over the real numbers.  Math.sqrt is
Real.sqrt.  The pair (Math.cos (Math.atan2 dy dx), Math.sin (Math.atan2 dy dx))
is modelled by unitDir dx dy, using the exact identities
cos (atan2 y x) = x / sqrt (x*x + y*y) and sin (atan2 y x) = y / sqrt (x*x + y*y)
valid whenever (dx, dy) is not (0, 0), and the JavaScript convention
atan2 0 0 = 0 (so unitDir 0 0 = (1, 0)) at the origin.

The render observer mutates the sprite refs in place; the embedding makes
that state passing explicit: step takes the isGameStarted and isPaused props,
the input refs read during the frame (keyboard map and touch drag state), the
two Math.random() draws used by a respawn, and the current GameState, and
returns the next GameState together with the captured signal (the collision
branch, which calls onScoreUpdate exactly once; Game.tsx increments the score
by one on that signal, which is modelled by the score field).
-/

namespace FlyingWhiskers

noncomputable section

-- Game constants (GameScene.tsx lines 63-73).
def ACCELERATION : ℝ := 0.01
def MAX_SPEED : ℝ := 0.2
def DRAG : ℝ := 0.98
def BOUNDS : ℝ := 8
def COLLISION_DISTANCE : ℝ := 1.5
def SARDINE_ESCAPE_SPEED : ℝ := 0.06
def SARDINE_AWARENESS_DISTANCE : ℝ := 4
def TOUCH_SENSITIVITY : ℝ := 0.01
def MOUSE_SENSITIVITY : ℝ := 0.02
def DOG_CHASE_SPEED : ℝ := 0.018

/-- A 2D vector; the z coordinate of the scene is always 0. -/
structure Vec2 where
  x : ℝ
  y : ℝ

/-- Digital key state read in the render observer.  Each field is the
disjunction of the two keys the source checks for that direction
(arrow key or WASD letter, lines 234-245). -/
structure Keys where
  left : Bool
  right : Bool
  up : Bool
  down : Bool

/-- The TouchState shape of the source, shared by the touch and mouse
drag-gesture refs. -/
structure DragState where
  active : Bool
  startX : ℝ
  startY : ℝ
  currentX : ℝ
  currentY : ℝ

/-- The input refs read by the render observer during one frame: the keyboard
map and the touch drag state.  (The mouse drag handlers write to the cat
velocity directly from the event handler and are not read in the frame loop.) -/
structure InputState where
  keys : Keys
  touch : DragState

/-- One body: a sprite position, its velocity ref, and the horizontal mirror
flag invertU used for facing. -/
structure Body where
  pos : Vec2
  vel : Vec2
  invertU : Bool

/-- The kinematic state of the three bodies plus the score owned by Game.tsx. -/
structure GameState where
  cat : Body
  sardine : Body
  dog : Body
  score : ℕ

/-- Math.sqrt (vx*vx + vy*vy): the speed magnitude of a velocity vector. -/
def speed (v : Vec2) : ℝ := Real.sqrt (v.x * v.x + v.y * v.y)

/-- Math.sqrt (dx*dx + dy*dy) for dx, dy the componentwise difference:
the distance between two points, as computed in the source. -/
def dist (a b : Vec2) : ℝ :=
  Real.sqrt ((a.x - b.x) * (a.x - b.x) + (a.y - b.y) * (a.y - b.y))

/-- (Math.cos (Math.atan2 dy dx), Math.sin (Math.atan2 dy dx)).  For
(dx, dy) different from (0, 0) this is exactly (dx / d, dy / d) with
d = sqrt (dx*dx + dy*dy); JavaScript defines atan2 0 0 = 0, giving (1, 0). -/
def unitDir (dx dy : ℝ) : Vec2 :=
  if dx = 0 ∧ dy = 0 then ⟨1, 0⟩
  else ⟨dx / Real.sqrt (dx * dx + dy * dy), dy / Real.sqrt (dx * dx + dy * dy)⟩

/-- Math.max (-BOUNDS, Math.min (BOUNDS, x)) on x and the same with BOUNDS/2
on y: the position clamp applied to every body (lines 222-223, 282-283,
307-308). -/
def clampPos (p : Vec2) : Vec2 :=
  ⟨max (-BOUNDS) (min BOUNDS p.x), max (-(BOUNDS / 2)) (min (BOUNDS / 2) p.y)⟩

/-- The speed clamp of lines 259-268: if the current speed exceeds MAX_SPEED,
both components are scaled by MAX_SPEED / currentSpeed. -/
def clampSpeed (v : Vec2) : Vec2 :=
  if MAX_SPEED < speed v then
    ⟨v.x * (MAX_SPEED / speed v), v.y * (MAX_SPEED / speed v)⟩
  else v

/-- Keyboard contribution to the cat velocity (lines 234-245): each pressed
direction adds plus or minus ACCELERATION to the matching component. -/
def keyboardVel (k : Keys) (v : Vec2) : Vec2 :=
  ⟨v.x + (if k.left then -ACCELERATION else 0) + (if k.right then ACCELERATION else 0),
   v.y + (if k.up then ACCELERATION else 0) + (if k.down then -ACCELERATION else 0)⟩

/-- Touch contribution (lines 248-253): while a touch drag is active the cat
velocity is replaced by the drag delta scaled by TOUCH_SENSITIVITY (screen y
points down, so the y component is negated). -/
def touchVel (t : DragState) (v : Vec2) : Vec2 :=
  if t.active = true then
    ⟨(t.currentX - t.startX) * TOUCH_SENSITIVITY, -(t.currentY - t.startY) * TOUCH_SENSITIVITY⟩
  else v

/-- Drag decay (lines 256-257): both velocity components are multiplied by
DRAG every running frame. -/
def dragVel (v : Vec2) : Vec2 := ⟨v.x * DRAG, v.y * DRAG⟩

/-- The cat velocity at the end of the velocity pipeline of one frame:
keyboard accumulation, then touch override, then drag, then the speed clamp. -/
def catVelAfter (inp : InputState) (v : Vec2) : Vec2 :=
  clampSpeed (dragVel (touchVel inp.touch (keyboardVel inp.keys v)))

/-- Facing rule of the cat and the dog (lines 226-230, 275-279): invertU is
set when moving left past the hysteresis band, cleared when moving right,
otherwise unchanged. -/
def faceChaser (v : Vec2) (old : Bool) : Bool :=
  if v.x < -0.01 then true else if 0.01 < v.x then false else old

/-- Facing rule of the sardine (lines 311-315), with the mirrored sign
convention: invertU is set when moving right, cleared when moving left. -/
def faceSardine (v : Vec2) (old : Bool) : Bool :=
  if 0.01 < v.x then true else if v.x < -0.01 then false else old

/-- The cat body after its update in one running frame (lines 234-283):
velocity pipeline, position integration, facing, position clamp. -/
def catAfter (inp : InputState) (b : Body) : Body :=
  ⟨clampPos ⟨b.pos.x + (catVelAfter inp b.vel).x, b.pos.y + (catVelAfter inp b.vel).y⟩,
   catVelAfter inp b.vel,
   faceChaser (catVelAfter inp b.vel) b.invertU⟩

/-- The dog velocity set in one frame (lines 211-215): the unit direction
from the dog to the cat scaled by DOG_CHASE_SPEED, overwriting the previous
velocity. -/
def dogVelAfter (catPos : Vec2) (b : Body) : Vec2 :=
  ⟨(unitDir (catPos.x - b.pos.x) (catPos.y - b.pos.y)).x * DOG_CHASE_SPEED,
   (unitDir (catPos.x - b.pos.x) (catPos.y - b.pos.y)).y * DOG_CHASE_SPEED⟩

/-- The dog body after its update (lines 194-231).  The dog moves first in
the frame and reads the cat position from the previous frame. -/
def dogAfter (catPos : Vec2) (b : Body) : Body :=
  ⟨clampPos ⟨b.pos.x + (dogVelAfter catPos b).x, b.pos.y + (dogVelAfter catPos b).y⟩,
   dogVelAfter catPos b,
   faceChaser (dogVelAfter catPos b) b.invertU⟩

/-- The sardine velocity rule (lines 290-300): within
SARDINE_AWARENESS_DISTANCE of the (already updated) cat the velocity is
overwritten with the direction away from the cat scaled by
SARDINE_ESCAPE_SPEED, otherwise both components decay by 0.95. -/
def sardineVel (catPos : Vec2) (b : Body) : Vec2 :=
  if dist catPos b.pos < SARDINE_AWARENESS_DISTANCE then
    ⟨-(unitDir (catPos.x - b.pos.x) (catPos.y - b.pos.y)).x * SARDINE_ESCAPE_SPEED,
     -(unitDir (catPos.x - b.pos.x) (catPos.y - b.pos.y)).y * SARDINE_ESCAPE_SPEED⟩
  else ⟨b.vel.x * 0.95, b.vel.y * 0.95⟩

/-- The sardine body after its evasion update (lines 290-315), before any
collision handling: velocity rule, position integration, position clamp,
facing. -/
def sardineAfterMove (catPos : Vec2) (b : Body) : Body :=
  ⟨clampPos ⟨b.pos.x + (sardineVel catPos b).x, b.pos.y + (sardineVel catPos b).y⟩,
   sardineVel catPos b,
   faceSardine (sardineVel catPos b) b.invertU⟩

/-- The replacement sardine created by the collision branch (lines 325-339
and createSardine, lines 607-640): position (r1 * 14 - 7, r2 * 6 - 3) from
the two Math.random() draws r1 and r2, zero velocity, invertU set. -/
def respawn (r1 r2 : ℝ) : Body :=
  ⟨⟨r1 * 14 - 7, r2 * 6 - 3⟩, ⟨0, 0⟩, true⟩

/-- The distance computed at lines 285-288: between the cat position after
the cat update and the sardine position from the previous frame.  This one
value drives both the evasion rule and the collision check of the frame. -/
def preDistance (inp : InputState) (s : GameState) : ℝ :=
  dist (catAfter inp s.cat).pos s.sardine.pos

/-- The distance between the cat and the sardine after both bodies have
moved in the frame (before any respawn).  The source never computes this
value; it is defined here to compare the collision rule against it. -/
def postDistance (inp : InputState) (s : GameState) : ℝ :=
  dist (catAfter inp s.cat).pos (sardineAfterMove (catAfter inp s.cat).pos s.sardine).pos

/-- One execution of the render observer (lines 167-352).  Returns the next
state and the captured signal of the collision branch.  When the game has
not started the three sprites are pinned to their spawn positions (lines
179-186); when started and paused the body state is untouched (lines
188-191); otherwise the dog, the cat and the sardine update in source order
and the collision branch fires iff the distance of lines 285-288 is below
COLLISION_DISTANCE, replacing the sardine and incrementing the score. -/
def step (isGameStarted isPaused : Bool) (inp : InputState) (r1 r2 : ℝ)
    (s : GameState) : GameState × Bool :=
  if isGameStarted = false then
    ({ s with cat := { s.cat with pos := ⟨-4, 0⟩ },
              sardine := { s.sardine with pos := ⟨4, 0⟩ },
              dog := { s.dog with pos := ⟨8, 0⟩ } }, false)
  else if isPaused = true then (s, false)
  else if preDistance inp s < COLLISION_DISTANCE then
    ({ cat := catAfter inp s.cat, sardine := respawn r1 r2,
       dog := dogAfter s.cat.pos s.dog, score := s.score + 1 }, true)
  else
    ({ cat := catAfter inp s.cat,
       sardine := sardineAfterMove (catAfter inp s.cat).pos s.sardine,
       dog := dogAfter s.cat.pos s.dog, score := s.score }, false)

/-- The inputs of one frame: the two flag props, the input refs, and the two
random draws a respawn would use. -/
structure FrameInput where
  started : Bool
  paused : Bool
  inp : InputState
  r1 : ℝ
  r2 : ℝ

/-- step applied to a packaged frame input. -/
def stepF (q : FrameInput) (s : GameState) : GameState × Bool :=
  step q.started q.paused q.inp q.r1 q.r2 s

/-- The state after running a whole list of frames. -/
def runSteps (ps : List FrameInput) (s : GameState) : GameState :=
  ps.foldl (fun t q => (stepF q t).1) s

/-- The list of captured signals produced along a run. -/
def captures : List FrameInput → GameState → List Bool
  | [], _ => []
  | q :: rest, s => (stepF q s).2 :: captures rest (stepF q s).1

/-- The session-start state (lines 128-155): cat at (-4, 0), sardine at
(4, 0) with invertU set, dog at (8, 0), all velocity refs zero, score 0. -/
def initState : GameState :=
  ⟨⟨⟨-4, 0⟩, ⟨0, 0⟩, false⟩, ⟨⟨4, 0⟩, ⟨0, 0⟩, true⟩, ⟨⟨8, 0⟩, ⟨0, 0⟩, false⟩, 0⟩

/-- handleTouchEnd (lines 470-475): deactivates the touch drag and resets
the cat velocity ref to exactly zero. -/
def handleTouchEnd (t : DragState) (_catVel : Vec2) : DragState × Vec2 :=
  ({ t with active := false }, ⟨0, 0⟩)

/-- handleMouseUp (lines 511-513): deactivates the mouse drag and leaves the
cat velocity ref untouched. -/
def handleMouseUp (m : DragState) (catVel : Vec2) : DragState × Vec2 :=
  ({ m with active := false }, catVel)

/-- handleMouseMove (lines 491-509): while the mouse drag is active, the
delta from the anchor is added to the cat velocity scaled by
MOUSE_SENSITIVITY and the anchor advances to the current point. -/
def handleMouseMove (ex ey : ℝ) (m : DragState) (v : Vec2) : DragState × Vec2 :=
  if m.active = true then
    (⟨true, ex, ey, ex, ey⟩,
     ⟨v.x + (ex - m.startX) * MOUSE_SENSITIVITY, v.y - (ey - m.startY) * MOUSE_SENSITIVITY⟩)
  else (m, v)

/-- The position bounds of the clamp: x in [-BOUNDS, BOUNDS] and
y in [-BOUNDS/2, BOUNDS/2], with BOUNDS = 8. -/
def inBoundsV (p : Vec2) : Prop :=
  -BOUNDS ≤ p.x ∧ p.x ≤ BOUNDS ∧ -(BOUNDS / 2) ≤ p.y ∧ p.y ≤ BOUNDS / 2

/-- All three bodies are inside the bound rectangle. -/
def inBounds (s : GameState) : Prop :=
  inBoundsV s.cat.pos ∧ inBoundsV s.sardine.pos ∧ inBoundsV s.dog.pos

/-- Idle input: no key pressed, no active touch drag. -/
def inp0 : InputState := ⟨⟨false, false, false, false⟩, ⟨false, 0, 0, 0, 0⟩⟩

/-- A concrete running state used for evaluation: cat resting at the origin,
sardine resting at (1.49, 0), dog resting at (8, 0). -/
def s0 : GameState :=
  ⟨⟨⟨0, 0⟩, ⟨0, 0⟩, false⟩, ⟨⟨1.49, 0⟩, ⟨0, 0⟩, true⟩, ⟨⟨8, 0⟩, ⟨0, 0⟩, false⟩, 0⟩

/-- s0 with a different dog body, for the noninterference witness. -/
def s0dog : GameState := { s0 with dog := ⟨⟨-2, 1⟩, ⟨0.5, 0⟩, true⟩ }

end

-- Basic facts about speed, dist, unitDir and the two clamps.

lemma speed_nonneg (v : Vec2) : 0 ≤ speed v := Real.sqrt_nonneg _

lemma speed_zero : speed ⟨0, 0⟩ = 0 := by
  simp [speed]

lemma sqrt_eval {c : ℝ} (a : ℝ) (h0 : 0 ≤ a) (h : c = a * a) : Real.sqrt c = a := by
  rw [h]
  exact Real.sqrt_mul_self h0

lemma dist_xaxis_le {a b : ℝ} (h : a ≤ b) : dist ⟨a, 0⟩ ⟨b, 0⟩ = b - a := by
  unfold dist
  exact sqrt_eval (b - a) (by linarith) (by ring)

lemma speed_scale (v : Vec2) (c : ℝ) : speed ⟨v.x * c, v.y * c⟩ = speed v * |c| := by
  unfold speed
  rw [show v.x * c * (v.x * c) + v.y * c * (v.y * c)
        = (v.x * v.x + v.y * v.y) * (c * c) by ring,
    Real.sqrt_mul (add_nonneg (mul_self_nonneg _) (mul_self_nonneg _)), Real.sqrt_mul_self_eq_abs]

lemma speed_neg_scale (v : Vec2) (c : ℝ) : speed ⟨-v.x * c, -v.y * c⟩ = speed v * |c| := by
  unfold speed
  rw [show -v.x * c * (-v.x * c) + -v.y * c * (-v.y * c)
        = (v.x * v.x + v.y * v.y) * (c * c) by ring,
    Real.sqrt_mul (add_nonneg (mul_self_nonneg _) (mul_self_nonneg _)), Real.sqrt_mul_self_eq_abs]

lemma speed_unitDir (dx dy : ℝ) : speed (unitDir dx dy) = 1 := by
  unfold unitDir
  split_ifs with h
  · simp [speed]
  · have hpos : 0 < dx * dx + dy * dy := by
      rcases not_and_or.mp h with h1 | h1
      · nlinarith [mul_self_pos.mpr h1, mul_self_nonneg dy]
      · nlinarith [mul_self_pos.mpr h1, mul_self_nonneg dx]
    have hs : 0 < Real.sqrt (dx * dx + dy * dy) := Real.sqrt_pos.mpr hpos
    have hss : Real.sqrt (dx * dx + dy * dy) * Real.sqrt (dx * dx + dy * dy)
        = dx * dx + dy * dy := Real.mul_self_sqrt hpos.le
    show Real.sqrt
        (dx / Real.sqrt (dx * dx + dy * dy) * (dx / Real.sqrt (dx * dx + dy * dy))
          + dy / Real.sqrt (dx * dx + dy * dy) * (dy / Real.sqrt (dx * dx + dy * dy))) = 1
    rw [show dx / Real.sqrt (dx * dx + dy * dy) * (dx / Real.sqrt (dx * dx + dy * dy))
          + dy / Real.sqrt (dx * dx + dy * dy) * (dy / Real.sqrt (dx * dx + dy * dy))
        = (dx * dx + dy * dy)
          / (Real.sqrt (dx * dx + dy * dy) * Real.sqrt (dx * dx + dy * dy)) by ring,
      hss, div_self (ne_of_gt hpos), Real.sqrt_one]

lemma clampPos_bounds (p : Vec2) : inBoundsV (clampPos p) := by
  unfold inBoundsV clampPos
  refine ⟨?_, ?_, ?_, ?_⟩
  · show -BOUNDS ≤ max (-BOUNDS) (min BOUNDS p.x)
    exact le_max_left _ _
  · show max (-BOUNDS) (min BOUNDS p.x) ≤ BOUNDS
    exact max_le (by norm_num [BOUNDS]) (min_le_left _ _)
  · show -(BOUNDS / 2) ≤ max (-(BOUNDS / 2)) (min (BOUNDS / 2) p.y)
    exact le_max_left _ _
  · show max (-(BOUNDS / 2)) (min (BOUNDS / 2) p.y) ≤ BOUNDS / 2
    exact max_le (by norm_num [BOUNDS]) (min_le_left _ _)

lemma clampPos_of_mem {p : Vec2} (h1 : -BOUNDS ≤ p.x) (h2 : p.x ≤ BOUNDS)
    (h3 : -(BOUNDS / 2) ≤ p.y) (h4 : p.y ≤ BOUNDS / 2) : clampPos p = p := by
  unfold clampPos
  rw [min_eq_right h2, max_eq_right h1, min_eq_right h4, max_eq_right h3]

lemma speed_pos_of_gt {v : Vec2} (h : MAX_SPEED < speed v) : 0 < speed v :=
  lt_trans (by norm_num [MAX_SPEED]) h

lemma clampSpeed_of_gt {v : Vec2} (h : MAX_SPEED < speed v) :
    clampSpeed v = ⟨v.x * (MAX_SPEED / speed v), v.y * (MAX_SPEED / speed v)⟩ := by
  unfold clampSpeed
  rw [if_pos h]

lemma clampSpeed_speed_eq {v : Vec2} (h : MAX_SPEED < speed v) :
    speed (clampSpeed v) = MAX_SPEED := by
  have hne : speed v ≠ 0 := ne_of_gt (speed_pos_of_gt h)
  rw [clampSpeed_of_gt h, speed_scale,
    abs_of_pos (div_pos (by norm_num [MAX_SPEED]) (speed_pos_of_gt h))]
  field_simp

lemma clampSpeed_speed_le (v : Vec2) : speed (clampSpeed v) ≤ MAX_SPEED := by
  by_cases h : MAX_SPEED < speed v
  · rw [clampSpeed_speed_eq h]
  · unfold clampSpeed
    rw [if_neg h]
    exact le_of_not_lt h

lemma clampSpeed_zero : clampSpeed ⟨0, 0⟩ = ⟨0, 0⟩ := by
  unfold clampSpeed
  rw [speed_zero, if_neg (by norm_num [MAX_SPEED])]

lemma sardineVel_speed_le {c : Vec2} {b : Body}
    (h : speed b.vel ≤ SARDINE_ESCAPE_SPEED) :
    speed (sardineVel c b) ≤ SARDINE_ESCAPE_SPEED := by
  unfold sardineVel
  split_ifs with hd
  · rw [speed_neg_scale, speed_unitDir, one_mul,
      abs_of_pos (by norm_num [SARDINE_ESCAPE_SPEED])]
  · rw [speed_scale, abs_of_pos (by norm_num : (0:ℝ) < 0.95)]
    have h0 := speed_nonneg b.vel
    simp only [SARDINE_ESCAPE_SPEED] at h ⊢
    nlinarith

-- Evaluation of one frame at the concrete state s0 with idle input.

lemma catVelAfter_inp0 : catVelAfter inp0 ⟨0, 0⟩ = ⟨0, 0⟩ := by
  have h1 : keyboardVel inp0.keys ⟨0, 0⟩ = ⟨0, 0⟩ := by
    simp [keyboardVel, inp0]
  have h2 : touchVel inp0.touch ⟨0, 0⟩ = ⟨0, 0⟩ := by
    simp [touchVel, inp0]
  have h3 : dragVel ⟨0, 0⟩ = ⟨0, 0⟩ := by
    simp [dragVel]
  unfold catVelAfter
  rw [h1, h2, h3, clampSpeed_zero]

lemma catAfter_inp0 : catAfter inp0 ⟨⟨0, 0⟩, ⟨0, 0⟩, false⟩ = ⟨⟨0, 0⟩, ⟨0, 0⟩, false⟩ := by
  show (⟨clampPos ⟨0 + (catVelAfter inp0 ⟨0, 0⟩).x, 0 + (catVelAfter inp0 ⟨0, 0⟩).y⟩,
      catVelAfter inp0 ⟨0, 0⟩, faceChaser (catVelAfter inp0 ⟨0, 0⟩) false⟩ : Body)
    = ⟨⟨0, 0⟩, ⟨0, 0⟩, false⟩
  rw [catVelAfter_inp0]
  rw [show (⟨0 + (⟨0, 0⟩ : Vec2).x, 0 + (⟨0, 0⟩ : Vec2).y⟩ : Vec2) = ⟨0, 0⟩ by norm_num]
  rw [clampPos_of_mem (by norm_num [BOUNDS]) (by norm_num [BOUNDS])
      (by norm_num [BOUNDS]) (by norm_num [BOUNDS])]
  norm_num [faceChaser]

lemma preDistance_s0 : preDistance inp0 s0 = 1.49 := by
  unfold preDistance
  rw [show s0.cat = (⟨⟨0, 0⟩, ⟨0, 0⟩, false⟩ : Body) from rfl, catAfter_inp0]
  show dist ⟨0, 0⟩ ⟨1.49, 0⟩ = 1.49
  rw [dist_xaxis_le (by norm_num)]
  norm_num

lemma sardineVel_s0 : sardineVel ⟨0, 0⟩ ⟨⟨1.49, 0⟩, ⟨0, 0⟩, true⟩ = ⟨0.06, 0⟩ := by
  unfold sardineVel
  rw [if_pos (by
    show dist ⟨0, 0⟩ ⟨1.49, 0⟩ < SARDINE_AWARENESS_DISTANCE
    rw [dist_xaxis_le (by norm_num)]
    norm_num [SARDINE_AWARENESS_DISTANCE])]
  unfold unitDir
  rw [if_neg (by norm_num)]
  rw [show Real.sqrt ((((0 : ℝ)) - 1.49) * (((0 : ℝ)) - 1.49) + (((0 : ℝ)) - 0) * (((0 : ℝ)) - 0))
      = 1.49 from sqrt_eval 1.49 (by norm_num) (by norm_num)]
  norm_num [SARDINE_ESCAPE_SPEED]

lemma sardineAfterMove_s0 :
    sardineAfterMove ⟨0, 0⟩ ⟨⟨1.49, 0⟩, ⟨0, 0⟩, true⟩ = ⟨⟨1.55, 0⟩, ⟨0.06, 0⟩, true⟩ := by
  unfold sardineAfterMove
  rw [sardineVel_s0]
  rw [show (⟨(⟨⟨1.49, 0⟩, ⟨0, 0⟩, true⟩ : Body).pos.x + (⟨0.06, 0⟩ : Vec2).x,
        (⟨⟨1.49, 0⟩, ⟨0, 0⟩, true⟩ : Body).pos.y + (⟨0.06, 0⟩ : Vec2).y⟩ : Vec2)
      = ⟨1.55, 0⟩ by norm_num]
  rw [clampPos_of_mem (by norm_num [BOUNDS]) (by norm_num [BOUNDS])
      (by norm_num [BOUNDS]) (by norm_num [BOUNDS])]
  norm_num [faceSardine]

lemma step_s0_eval (r1 r2 : ℝ) :
    step true false inp0 r1 r2 s0 =
      ({ cat := ⟨⟨0, 0⟩, ⟨0, 0⟩, false⟩, sardine := respawn r1 r2,
         dog := dogAfter ⟨0, 0⟩ ⟨⟨8, 0⟩, ⟨0, 0⟩, false⟩, score := 1 }, true) := by
  unfold step
  rw [if_neg (by simp), if_neg (by simp),
    if_pos (by rw [preDistance_s0]; norm_num [COLLISION_DISTANCE])]
  rw [show s0.cat = (⟨⟨0, 0⟩, ⟨0, 0⟩, false⟩ : Body) from rfl, catAfter_inp0]
  rfl

lemma postDistance_s0 : postDistance inp0 s0 = 1.55 := by
  unfold postDistance
  rw [show s0.cat = (⟨⟨0, 0⟩, ⟨0, 0⟩, false⟩ : Body) from rfl, catAfter_inp0]
  rw [show s0.sardine = (⟨⟨1.49, 0⟩, ⟨0, 0⟩, true⟩ : Body) from rfl]
  rw [show (⟨⟨0, 0⟩, ⟨0, 0⟩, false⟩ : Body).pos = ⟨0, 0⟩ from rfl, sardineAfterMove_s0]
  show dist ⟨0, 0⟩ ⟨1.55, 0⟩ = 1.55
  rw [dist_xaxis_le (by norm_num)]
  norm_num

-- One frame never reads the dog state except to move the dog itself.

lemma step_dog_indep (st p : Bool) (inp : InputState) (r1 r2 : ℝ) (s t : GameState)
    (hc : s.cat = t.cat) (hs : s.sardine = t.sardine) (hsc : s.score = t.score) :
    (step st p inp r1 r2 s).1.cat = (step st p inp r1 r2 t).1.cat
    ∧ (step st p inp r1 r2 s).1.sardine = (step st p inp r1 r2 t).1.sardine
    ∧ (step st p inp r1 r2 s).1.score = (step st p inp r1 r2 t).1.score
    ∧ (step st p inp r1 r2 s).2 = (step st p inp r1 r2 t).2 := by
  obtain ⟨c1, s1, d1, k1⟩ := s
  obtain ⟨c2, s2, d2, k2⟩ := t
  simp only [GameState.cat, GameState.sardine, GameState.score] at hc hs hsc
  subst hc
  subst hs
  subst hsc
  unfold step preDistance
  split_ifs <;> simp

-- Claim theorems.

/-- Claim C1 (amended): in every running frame (Started and not Paused) the
capture signal fires iff the distance computed after the cat update but
before the sardine position update (preDistance, lines 285-288) is strictly
below COLLISION_DISTANCE.  The source does not recompute the distance after
the sardine moves. -/
theorem capture_iff_pre_update_distance (inp : InputState) (r1 r2 : ℝ) (s : GameState) :
    (step true false inp r1 r2 s).2 = true ↔ preDistance inp s < COLLISION_DISTANCE := by
  unfold step
  rw [if_neg (by simp), if_neg (by simp)]
  split_ifs with h <;> simp [h]

/-- Claim C1 counterexample: at the concrete running state s0 (cat resting at
the origin, sardine resting at (1.49, 0)) the capture signal fires although
the distance recomputed after both bodies moved is 1.55, which is not below
COLLISION_DISTANCE.  The claim as stated is therefore false. -/
theorem capture_post_update_distance_cex :
    ¬ ((step true false inp0 0 0 s0).2 = true
        ↔ postDistance inp0 s0 < COLLISION_DISTANCE) := by
  rw [postDistance_s0, step_s0_eval]
  norm_num [COLLISION_DISTANCE]

/-- Claim C2 (amended): every frame changes the score by exactly the capture
signal, hence by at most 1, for every random draw: even when the respawned
sardine happens to land within capture distance of the cat the frame counts
a single capture, because the new position is never re-checked in that
frame. -/
theorem score_increment_once (st p : Bool) (inp : InputState) (r1 r2 : ℝ) (s : GameState) :
    (step st p inp r1 r2 s).1.score
      = s.score + (if (step st p inp r1 r2 s).2 = true then 1 else 0)
    ∧ (step st p inp r1 r2 s).1.score ≤ s.score + 1 := by
  unfold step
  split_ifs <;> simp_all

/-- Claim C2 counterexample: a capture at s0 with both random draws equal to
1/2 respawns the sardine exactly at the cat position, so the newly created
sardine IS within capture distance of the cat in that same frame; the score
still grows by exactly 1. -/
theorem respawn_within_capture_distance_cex :
    (step true false inp0 (1/2) (1/2) s0).2 = true
    ∧ dist (step true false inp0 (1/2) (1/2) s0).1.cat.pos
        (step true false inp0 (1/2) (1/2) s0).1.sardine.pos < COLLISION_DISTANCE
    ∧ (step true false inp0 (1/2) (1/2) s0).1.score = s0.score + 1 := by
  rw [step_s0_eval]
  refine ⟨rfl, ?_, rfl⟩
  show dist ⟨0, 0⟩ (respawn (1/2) (1/2)).pos < COLLISION_DISTANCE
  rw [show (respawn (1/2) (1/2)).pos = (⟨0, 0⟩ : Vec2) by norm_num [respawn]]
  rw [dist_xaxis_le (by norm_num)]
  norm_num [COLLISION_DISTANCE]

/-- Claim C4: the speed clamp never lets the cat speed exceed MAX_SPEED;
when the pre-clamp speed exceeds MAX_SPEED the velocity is rescaled by
exactly MAX_SPEED / speed (direction preserved, a positive multiple) and the
clamped speed is exactly MAX_SPEED; consequently the cat velocity produced
by any frame has speed at most MAX_SPEED. -/
theorem player_speed_clamped (v : Vec2) :
    speed (clampSpeed v) ≤ MAX_SPEED
    ∧ (MAX_SPEED < speed v →
        clampSpeed v = ⟨v.x * (MAX_SPEED / speed v), v.y * (MAX_SPEED / speed v)⟩
        ∧ speed (clampSpeed v) = MAX_SPEED)
    ∧ ∀ (inp : InputState) (b : Body), speed (catAfter inp b).vel ≤ MAX_SPEED := by
  refine ⟨clampSpeed_speed_le v, fun h => ⟨clampSpeed_of_gt h, clampSpeed_speed_eq h⟩, ?_⟩
  intro inp b
  show speed (catVelAfter inp b.vel) ≤ MAX_SPEED
  unfold catVelAfter
  exact clampSpeed_speed_le _

/-- Claim C4 witness: the velocity (0.3, 0.4) has speed 0.5 above MAX_SPEED
and is rescaled to (0.12, 0.16) of speed exactly MAX_SPEED. -/
theorem player_speed_clamped_witness :
    clampSpeed ⟨0.3, 0.4⟩ = ⟨0.12, 0.16⟩
    ∧ speed (clampSpeed ⟨0.3, 0.4⟩) = MAX_SPEED := by
  have hv : speed ⟨0.3, 0.4⟩ = 0.5 := by
    show Real.sqrt (0.3 * 0.3 + 0.4 * 0.4) = 0.5
    exact sqrt_eval 0.5 (by norm_num) (by norm_num)
  obtain ⟨h1, h2⟩ := (player_speed_clamped ⟨0.3, 0.4⟩).2.1
    (by rw [hv]; norm_num [MAX_SPEED])
  refine ⟨?_, h2⟩
  rw [h1, hv]
  norm_num [MAX_SPEED]

/-- Claim C6: when the game is started and paused the frame is a no-op: the
state (all positions, velocities, facings and the score) is returned
untouched and no capture signal fires; iterating any number of paused frames
leaves the state at the pre-pause snapshot. -/
theorem paused_step_noop (inp : InputState) (r1 r2 : ℝ) (s : GameState) :
    step true true inp r1 r2 s = (s, false)
    ∧ ∀ n : ℕ, (fun u => (step true true inp r1 r2 u).1)^[n] s = s := by
  have h : ∀ u : GameState, step true true inp r1 r2 u = (u, false) := by
    intro u
    unfold step
    simp
  refine ⟨h s, ?_⟩
  intro n
  induction n with
  | zero => simp
  | succ k ih =>
    rw [Function.iterate_succ_apply', ih]
    show (step true true inp r1 r2 s).1 = s
    rw [h s]

/-- Claim C7: handleTouchEnd deactivates the touch drag and resets the cat
velocity to exactly (0, 0); handleMouseUp deactivates the mouse drag and
leaves the cat velocity unchanged. -/
theorem drag_release_velocity (t m : DragState) (v : Vec2) :
    (handleTouchEnd t v).2 = ⟨0, 0⟩ ∧ (handleTouchEnd t v).1.active = false
    ∧ (handleMouseUp m v).2 = v ∧ (handleMouseUp m v).1.active = false := by
  refine ⟨rfl, rfl, rfl, rfl⟩

lemma catAfter_pos_inBounds (inp : InputState) (b : Body) :
    inBoundsV (catAfter inp b).pos :=
  clampPos_bounds _

lemma dogAfter_pos_inBounds (catPos : Vec2) (b : Body) :
    inBoundsV (dogAfter catPos b).pos :=
  clampPos_bounds _

lemma sardineAfterMove_pos_inBounds (catPos : Vec2) (b : Body) :
    inBoundsV (sardineAfterMove catPos b).pos :=
  clampPos_bounds _

lemma respawn_inBounds {r1 r2 : ℝ} (h1 : 0 ≤ r1) (h2 : r1 ≤ 1)
    (h3 : 0 ≤ r2) (h4 : r2 ≤ 1) : inBoundsV (respawn r1 r2).pos := by
  unfold inBoundsV respawn BOUNDS
  dsimp only
  refine ⟨by linarith, by linarith, by linarith, by linarith⟩

/-- Claim C3: for any frame (any flags, any input, random draws in the unit
interval) a state whose three bodies are inside the bound rectangle
(x in [-8, 8], y in [-4, 4]) steps to a state whose three bodies are inside
the bound rectangle: the invariant is enforced by the position clamps, by
the respawn range, and by the pinned spawn positions. -/
theorem positions_within_bounds (st p : Bool) (inp : InputState) (r1 r2 : ℝ)
    (s : GameState) (h1 : 0 ≤ r1) (h2 : r1 ≤ 1) (h3 : 0 ≤ r2) (h4 : r2 ≤ 1)
    (hs : inBounds s) : inBounds (step st p inp r1 r2 s).1 := by
  obtain ⟨hc, hsar, hd⟩ := hs
  unfold step inBounds
  split_ifs with g1 g2 g3
  · exact ⟨by norm_num [inBoundsV, BOUNDS], by norm_num [inBoundsV, BOUNDS],
      by norm_num [inBoundsV, BOUNDS]⟩
  · exact ⟨hc, hsar, hd⟩
  · exact ⟨catAfter_pos_inBounds _ _, respawn_inBounds h1 h2 h3 h4,
      dogAfter_pos_inBounds _ _⟩
  · exact ⟨catAfter_pos_inBounds _ _, sardineAfterMove_pos_inBounds _ _,
      dogAfter_pos_inBounds _ _⟩

/-- Claim C3 witness: the in-bounds running state s0 steps to an in-bounds
state. -/
theorem positions_within_bounds_witness : inBounds (step true false inp0 0 0 s0).1 :=
  positions_within_bounds true false inp0 0 0 s0 (by norm_num) (by norm_num)
    (by norm_num) (by norm_num)
    (by norm_num [inBounds, inBoundsV, BOUNDS, s0])

/-- Claim C5: in the sardine update of a frame, when the cat-sardine
distance is positive and below SARDINE_AWARENESS_DISTANCE the sardine
velocity is overwritten with the unit vector pointing away from the cat
scaled to magnitude exactly SARDINE_ESCAPE_SPEED; when the distance is at
least SARDINE_AWARENESS_DISTANCE both components are multiplied by 0.95.
In both cases the sardine body produced by the movement stage carries
exactly that velocity. -/
theorem sardine_evasion_rule (c : Vec2) (b : Body) :
    (0 < dist c b.pos → dist c b.pos < SARDINE_AWARENESS_DISTANCE →
      sardineVel c b
        = ⟨(b.pos.x - c.x) / dist c b.pos * SARDINE_ESCAPE_SPEED,
           (b.pos.y - c.y) / dist c b.pos * SARDINE_ESCAPE_SPEED⟩
      ∧ speed (sardineVel c b) = SARDINE_ESCAPE_SPEED
      ∧ (sardineAfterMove c b).vel = sardineVel c b)
    ∧ (SARDINE_AWARENESS_DISTANCE ≤ dist c b.pos →
      sardineVel c b = ⟨b.vel.x * 0.95, b.vel.y * 0.95⟩
      ∧ (sardineAfterMove c b).vel = sardineVel c b) := by
  constructor
  · intro hpos hlt
    have hne : ¬ (c.x - b.pos.x = 0 ∧ c.y - b.pos.y = 0) := by
      rintro ⟨e1, e2⟩
      unfold dist at hpos
      rw [e1, e2] at hpos
      norm_num [Real.sqrt_zero] at hpos
    have hS : sardineVel c b
        = ⟨-(unitDir (c.x - b.pos.x) (c.y - b.pos.y)).x * SARDINE_ESCAPE_SPEED,
           -(unitDir (c.x - b.pos.x) (c.y - b.pos.y)).y * SARDINE_ESCAPE_SPEED⟩ := by
      unfold sardineVel
      rw [if_pos hlt]
    have hdd : dist c b.pos
        = Real.sqrt ((c.x - b.pos.x) * (c.x - b.pos.x)
            + (c.y - b.pos.y) * (c.y - b.pos.y)) := rfl
    refine ⟨?_, ?_, rfl⟩
    · rw [hS]
      unfold unitDir
      rw [if_neg hne, ← hdd]
      simp only [Vec2.mk.injEq]
      constructor <;> ring
    · rw [hS, speed_neg_scale, speed_unitDir, one_mul,
        abs_of_pos (by norm_num [SARDINE_ESCAPE_SPEED])]
  · intro hge
    refine ⟨?_, rfl⟩
    unfold sardineVel
    rw [if_neg (not_lt.mpr hge)]

/-- Claim C5 witness: with the cat at the origin and the sardine resting at
(1.49, 0) the evasion rule fires and sets the sardine velocity to
(0.06, 0), of magnitude exactly SARDINE_ESCAPE_SPEED. -/
theorem sardine_evasion_rule_witness :
    sardineVel ⟨0, 0⟩ ⟨⟨1.49, 0⟩, ⟨0, 0⟩, true⟩ = ⟨0.06, 0⟩
    ∧ speed (sardineVel ⟨0, 0⟩ ⟨⟨1.49, 0⟩, ⟨0, 0⟩, true⟩) = SARDINE_ESCAPE_SPEED := by
  have hd : dist ⟨0, 0⟩ (Body.pos ⟨⟨1.49, 0⟩, ⟨0, 0⟩, true⟩) = 1.49 := by
    show dist ⟨0, 0⟩ ⟨1.49, 0⟩ = 1.49
    rw [dist_xaxis_le (by norm_num)]
    norm_num
  obtain ⟨h1, h2, h3⟩ := (sardine_evasion_rule ⟨0, 0⟩ ⟨⟨1.49, 0⟩, ⟨0, 0⟩, true⟩).1
    (by rw [hd]; norm_num) (by rw [hd]; norm_num [SARDINE_AWARENESS_DISTANCE])
  refine ⟨?_, h2⟩
  rw [h1, hd]
  norm_num [SARDINE_ESCAPE_SPEED]

/-- Claim C8: whenever a frame fires the capture signal, the sardine of the
resulting state is the respawned one: its position satisfies x in [-7, 7]
and y in [-3, 3] for every random draw in the unit interval, and its
velocity is exactly (0, 0). -/
theorem respawn_in_range (inp : InputState) (r1 r2 : ℝ) (s : GameState)
    (h1 : 0 ≤ r1) (h2 : r1 < 1) (h3 : 0 ≤ r2) (h4 : r2 < 1)
    (hcap : (step true false inp r1 r2 s).2 = true) :
    -7 ≤ (step true false inp r1 r2 s).1.sardine.pos.x
    ∧ (step true false inp r1 r2 s).1.sardine.pos.x ≤ 7
    ∧ -3 ≤ (step true false inp r1 r2 s).1.sardine.pos.y
    ∧ (step true false inp r1 r2 s).1.sardine.pos.y ≤ 3
    ∧ (step true false inp r1 r2 s).1.sardine.vel = ⟨0, 0⟩ := by
  unfold step at hcap ⊢
  rw [if_neg (by simp), if_neg (by simp)] at hcap ⊢
  by_cases hlt : preDistance inp s < COLLISION_DISTANCE
  · rw [if_pos hlt]
    refine ⟨?_, ?_, ?_, ?_, rfl⟩
    · show -7 ≤ r1 * 14 - 7
      linarith
    · show r1 * 14 - 7 ≤ 7
      linarith
    · show -3 ≤ r2 * 6 - 3
      linarith
    · show r2 * 6 - 3 ≤ 3
      linarith
  · rw [if_neg hlt] at hcap
    simp at hcap

/-- Claim C8 witness: the capture at s0 with both draws 1/2 produces a
sardine at (0, 0), inside the respawn rectangle, with zero velocity. -/
theorem respawn_in_range_witness :
    -7 ≤ (step true false inp0 (1/2) (1/2) s0).1.sardine.pos.x
    ∧ (step true false inp0 (1/2) (1/2) s0).1.sardine.pos.x ≤ 7
    ∧ -3 ≤ (step true false inp0 (1/2) (1/2) s0).1.sardine.pos.y
    ∧ (step true false inp0 (1/2) (1/2) s0).1.sardine.pos.y ≤ 3
    ∧ (step true false inp0 (1/2) (1/2) s0).1.sardine.vel = ⟨0, 0⟩ :=
  respawn_in_range inp0 (1/2) (1/2) s0 (by norm_num) (by norm_num) (by norm_num)
    (by norm_num) (by rw [step_s0_eval])

/-- Claim C9: the dog (Pursuer) state never influences the cat, the sardine,
the capture signals or the score: two runs over the same frame inputs whose
start states agree on the cat, the sardine and the score (the dog bodies
arbitrary) agree on the cat, the sardine, the score, and the whole list of
capture signals, on every frame. -/
theorem pursuer_no_influence (ps : List FrameInput) (s t : GameState)
    (hc : s.cat = t.cat) (hs : s.sardine = t.sardine) (hsc : s.score = t.score) :
    (runSteps ps s).cat = (runSteps ps t).cat
    ∧ (runSteps ps s).sardine = (runSteps ps t).sardine
    ∧ (runSteps ps s).score = (runSteps ps t).score
    ∧ captures ps s = captures ps t := by
  induction ps generalizing s t with
  | nil => exact ⟨hc, hs, hsc, rfl⟩
  | cons q rest ih =>
    obtain ⟨h1, h2, h3, h4⟩ :=
      step_dog_indep q.started q.paused q.inp q.r1 q.r2 s t hc hs hsc
    obtain ⟨g1, g2, g3, g4⟩ := ih ((stepF q s).1) ((stepF q t).1) h1 h2 h3
    refine ⟨?_, ?_, ?_, ?_⟩
    · show (runSteps rest (stepF q s).1).cat = (runSteps rest (stepF q t).1).cat
      exact g1
    · show (runSteps rest (stepF q s).1).sardine = (runSteps rest (stepF q t).1).sardine
      exact g2
    · show (runSteps rest (stepF q s).1).score = (runSteps rest (stepF q t).1).score
      exact g3
    · show (stepF q s).2 :: captures rest (stepF q s).1
        = (stepF q t).2 :: captures rest (stepF q t).1
      rw [show (stepF q s).2 = (stepF q t).2 from h4, g4]

/-- Claim C9 witness: one running frame from s0 and from s0 with a displaced,
moving dog yields the same cat, sardine, score and capture list. -/
theorem pursuer_no_influence_witness :
    (runSteps [⟨true, false, inp0, 0, 0⟩] s0).cat
      = (runSteps [⟨true, false, inp0, 0, 0⟩] s0dog).cat
    ∧ (runSteps [⟨true, false, inp0, 0, 0⟩] s0).sardine
      = (runSteps [⟨true, false, inp0, 0, 0⟩] s0dog).sardine
    ∧ (runSteps [⟨true, false, inp0, 0, 0⟩] s0).score
      = (runSteps [⟨true, false, inp0, 0, 0⟩] s0dog).score
    ∧ captures [⟨true, false, inp0, 0, 0⟩] s0
      = captures [⟨true, false, inp0, 0, 0⟩] s0dog :=
  pursuer_no_influence [⟨true, false, inp0, 0, 0⟩] s0 s0dog rfl rfl rfl

/-- Claim C10: the sardine speed never exceeds SARDINE_ESCAPE_SPEED in any
reachable state: it is zero at session start, every frame either keeps it,
sets it to magnitude exactly SARDINE_ESCAPE_SPEED, decays it by 0.95, or
resets it to zero on respawn, so the bound is preserved by every frame and
holds along every run from the session start. -/
theorem sardine_speed_invariant :
    speed initState.sardine.vel = 0
    ∧ (∀ (st p : Bool) (inp : InputState) (r1 r2 : ℝ) (s : GameState),
        speed s.sardine.vel ≤ SARDINE_ESCAPE_SPEED →
        speed (step st p inp r1 r2 s).1.sardine.vel ≤ SARDINE_ESCAPE_SPEED)
    ∧ ∀ ps : List FrameInput,
        speed (runSteps ps initState).sardine.vel ≤ SARDINE_ESCAPE_SPEED := by
  have hzero : speed initState.sardine.vel = 0 := by
    show speed ⟨0, 0⟩ = 0
    exact speed_zero
  have hstep : ∀ (st p : Bool) (inp : InputState) (r1 r2 : ℝ) (s : GameState),
      speed s.sardine.vel ≤ SARDINE_ESCAPE_SPEED →
      speed (step st p inp r1 r2 s).1.sardine.vel ≤ SARDINE_ESCAPE_SPEED := by
    intro st p inp r1 r2 s h
    unfold step
    split_ifs with g1 g2 g3
    · exact h
    · exact h
    · show speed (⟨0, 0⟩ : Vec2) ≤ SARDINE_ESCAPE_SPEED
      rw [speed_zero]
      norm_num [SARDINE_ESCAPE_SPEED]
    · show speed (sardineVel (catAfter inp s.cat).pos s.sardine) ≤ SARDINE_ESCAPE_SPEED
      exact sardineVel_speed_le h
  refine ⟨hzero, hstep, ?_⟩
  intro ps
  have hrun : ∀ u : GameState, speed u.sardine.vel ≤ SARDINE_ESCAPE_SPEED →
      speed (runSteps ps u).sardine.vel ≤ SARDINE_ESCAPE_SPEED := by
    induction ps with
    | nil => exact fun u h => h
    | cons q rest ih =>
      intro u h
      show speed (runSteps rest (stepF q u).1).sardine.vel ≤ SARDINE_ESCAPE_SPEED
      exact ih _ (hstep q.started q.paused q.inp q.r1 q.r2 u h)
  exact hrun initState (by rw [hzero]; norm_num [SARDINE_ESCAPE_SPEED])

/-- Claim C10 witness: stepping the concrete state s0, whose sardine is at
rest, keeps the sardine speed within SARDINE_ESCAPE_SPEED. -/
theorem sardine_speed_invariant_witness :
    speed (step true false inp0 0 0 s0).1.sardine.vel ≤ SARDINE_ESCAPE_SPEED :=
  sardine_speed_invariant.2.1 true false inp0 0 0 s0
    (by show speed ⟨0, 0⟩ ≤ SARDINE_ESCAPE_SPEED
        rw [speed_zero]
        norm_num [SARDINE_ESCAPE_SPEED])

end FlyingWhiskers
